import Mathlib

/-!
Shallow embedding of `src/healthcare_dashbaord/app.py`, the single source file
of the Patient-Healthcare-Dashboard repository.

The program loads a CSV into a pandas DataFrame (`load_data`), computes two
summary statistics (`num_records`, `avg_billing`), and registers five view
callbacks (`update_age_distribution`, `update_condition_distribution`,
`update_admission_trends`, `update_billing_distribution`,
`update_insurance_comparison`) that filter the shared table and build plotly
figures.

Modelling choices:
* A DataFrame row becomes a `Row` record; the table is a `List Row` kept in
  source order.
* `Billing Amount` after `pd.to_numeric(..., errors='coerce')` is
  `Option ℚ`: `none` is the NaN missing-value marker.  Pandas comparisons
  with NaN are false and pandas `mean` skips NaN, which the definitions
  reproduce explicitly.
* `YearMonth` (`dt.to_period('M')`) is modelled as `Nat` via
  `year * 12 + month`, an order-isomorphic chronological key; pandas
  `groupby` emits group keys in ascending (chronological) order.
* Python truthiness of an optional dropdown string (`if selected_gender:`)
  is `none ↦ false`, `some s ↦ s ≠ ""`.
* A plotly figure becomes the abstract `Figure` chart spec; the `{}` dict
  returned at app.py:134 becomes `Figure.empty`.
-/

/-- A raw CSV cell for the `Billing Amount` column before coercion: either a
value that `pd.to_numeric` parses (modelled already-numeric) or
non-numeric text. -/
inductive RawCell where
  | num (q : ℚ)
  | text (s : String)
deriving DecidableEq, Repr

/-- `pd.to_numeric(col, errors='coerce')` on one cell: numeric values pass
through, unparsable text becomes the missing-value marker (NaN), app.py:11. -/
def toNumericCoerce : RawCell → Option ℚ
  | .num q => some q
  | .text _ => none

/-- A raw CSV row as read by `pd.read_csv` (app.py:10).  Dates are modelled
already parsed into year and month, since `pd.to_datetime` (app.py:12)
raises on unparsable dates and none of the verified claims concern that
fatal path. -/
structure RawRow where
  age : Int
  gender : String
  medicalCondition : String
  insuranceProvider : String
  billingRaw : RawCell
  admissionYear : Nat
  admissionMonth : Nat
deriving DecidableEq, Repr

/-- A processed row of the shared DataFrame `df` after `load_data`. -/
structure Row where
  age : Int
  gender : String
  medicalCondition : String
  insuranceProvider : String
  billing : Option ℚ
  yearMonth : Nat
deriving DecidableEq, Repr

/-- `load_data` (app.py:8-14): coerce `Billing Amount` to numeric-or-missing
and derive the chronological `YearMonth` key from the admission date. -/
def load_data (raw : List RawRow) : List Row :=
  raw.map fun r =>
    { age := r.age
      gender := r.gender
      medicalCondition := r.medicalCondition
      insuranceProvider := r.insuranceProvider
      billing := toNumericCoerce r.billingRaw
      yearMonth := r.admissionYear * 12 + r.admissionMonth }

/-- `num_records = len(df)` (app.py:19). -/
def num_records (df : List Row) : Nat := df.length

/-- `avg_billing = df['Billing Amount'].mean()` (app.py:20).  Pandas `mean`
skips NaN; when every value is NaN the result is NaN, modelled `none`. -/
def avg_billing (df : List Row) : Option ℚ :=
  let vs := df.filterMap (·.billing)
  if vs.isEmpty then none else some (vs.sum / vs.length)

/-- Python truthiness of an optional dropdown string: `None` and `""` are
falsy, every other string is truthy. -/
def strTruthy : Option String → Bool
  | none => false
  | some s => !(s == "")

/-- The gender filter step shared by four callbacks (app.py:127-130, 154,
185, 196): `df[df['Gender'] == selected_gender] if selected_gender else df`. -/
def genderFilter (df : List Row) (selected_gender : Option String) : List Row :=
  if strTruthy selected_gender then
    df.filter (fun r => r.gender == selected_gender.getD "")
  else df

/-- The medical-condition filter step of `update_admission_trends`
(app.py:165): `df[df['Medical Condition'] == selected_condition] if
selected_condition else df`. -/
def conditionFilter (df : List Row) (selected_condition : Option String) : List Row :=
  if strTruthy selected_condition then
    df.filter (fun r => r.medicalCondition == selected_condition.getD "")
  else df

/-- An abstract chart spec (the plotly figure returned by each callback).
`empty` is the bare `{}` dict returned at app.py:134 when the filtered
frame is empty. -/
inductive Figure where
  | empty
  | hist (binCounts : List Nat) (title : String)
  | pie (shares : List (String × Nat)) (title : String)
  | line (points : List (Nat × Nat)) (title : String)
  | bar (points : List (Nat × Nat)) (title : String)
  | groupedBar (bars : List (String × String × Option ℚ)) (title : String)
deriving DecidableEq, Repr

/-- The bin index plotly assigns a value `v` in an `nbins`-bin equal-width
histogram over `[lo, hi]`: `⌊(v - lo) · nbins / (hi - lo)⌋`, with the
maximum value clamped into the last bin, and a single bin when all values
coincide. -/
def binIdx (lo hi : ℚ) (nbins : Nat) (v : ℚ) : Nat :=
  if hi = lo then 0
  else min (((v - lo) * nbins / (hi - lo)).floor.toNat) (nbins - 1)

/-- Bin counts of `px.histogram(vals, nbins)`: empty data yields an empty
(no-data) histogram, otherwise `nbins` equal-width bins spanning
`[min vals, max vals]`. -/
def binCounts (vals : List ℚ) (nbins : Nat) : List Nat :=
  match vals with
  | [] => []
  | v :: vs =>
    let lo := vs.foldr min v
    let hi := vs.foldr max v
    (List.range nbins).map fun i =>
      (v :: vs).countP (fun x => binIdx lo hi nbins x == i)

/-- `update_age_distribution` (app.py:125-146): gender-filter, return `{}`
on an empty frame, else a 10-bin histogram of Age.  The `color="Gender"`
argument splits the bars into per-gender series without changing the
per-bin totals, so the spec records the totals. -/
def update_age_distribution (df : List Row) (selected_gender : Option String) : Figure :=
  let filtered_df := genderFilter df selected_gender
  if filtered_df.isEmpty then Figure.empty
  else
    Figure.hist (binCounts (filtered_df.map fun r => (r.age : ℚ)) 10)
      "Age Distribution by Gender"

/-- `update_condition_distribution` (app.py:153-156): gender-filter, then a
pie of row counts keyed by Medical Condition (plotly aggregates the shares
from the raw rows; keys in first-occurrence order). -/
def update_condition_distribution (df : List Row) (selected_gender : Option String) : Figure :=
  let filtered_df := genderFilter df selected_gender
  Figure.pie
    (((filtered_df.map (·.medicalCondition)).dedup).map fun c =>
      (c, filtered_df.countP (fun r => r.medicalCondition == c)))
    "Medical Condition Distribution"

/-- `filtered_df.groupby('YearMonth').size()` (app.py:168): one `(key,
count)` pair per distinct YearMonth value, keys in ascending
(chronological) order — pandas `groupby` sorts group keys. -/
def groupByYearMonthSize (df : List Row) : List (Nat × Nat) :=
  (((df.map (·.yearMonth)).dedup).insertionSort (· ≤ ·)).map fun k =>
    (k, df.countP (fun r => r.yearMonth == k))

/-- `update_admission_trends` (app.py:164-176): condition-filter, group by
YearMonth with counts, then a line chart when `chart_type == 'line'` and a
bar chart otherwise. -/
def update_admission_trends (df : List Row) (chart_type : Option String)
    (selected_condition : Option String) : Figure :=
  let filtered_df := conditionFilter df selected_condition
  let trend := groupByYearMonthSize filtered_df
  if chart_type == some "line" then
    Figure.line trend "Admission Trends Over Time"
  else
    Figure.bar trend "Admission Trends Over Time"

/-- The row-level test of `filtered_df['Billing Amount'] <= slider_value`
(app.py:186): a NaN (missing) billing compares false in pandas. -/
def billingLE (r : Row) (ceiling : ℚ) : Bool :=
  match r.billing with
  | some b => decide (b ≤ ceiling)
  | none => false

/-- The ceiling filter step of `update_billing_distribution` (app.py:186). -/
def ceilingFilter (df : List Row) (ceiling : ℚ) : List Row :=
  df.filter (fun r => billingLE r ceiling)

/-- `update_billing_distribution` (app.py:184-188): gender-filter, keep rows
with `Billing Amount <= slider_value`, then a 10-bin histogram of the
remaining billing amounts (plotly drops missing values; none remain after
the comparison). -/
def update_billing_distribution (df : List Row) (selected_gender : Option String)
    (slider_value : ℚ) : Figure :=
  let filtered_df := ceilingFilter (genderFilter df selected_gender) slider_value
  Figure.hist (binCounts (filtered_df.filterMap (·.billing)) 10)
    "Billing Amount Distribution"

/-- `update_insurance_comparison` (app.py:195-202): gender-filter, then a
grouped bar chart with one bar per row — provider on x, billing on y,
colored by condition (no aggregation in the source). -/
def update_insurance_comparison (df : List Row) (selected_gender : Option String) : Figure :=
  let filtered_df := genderFilter df selected_gender
  Figure.groupedBar
    (filtered_df.map fun r => (r.insuranceProvider, r.medicalCondition, r.billing))
    "Insurance Provider Billing Comparison"

/-- Group the decimal digits of `n` in threes with commas, as the `,` in the
Python format spec `,.2f` does for the integer part (app.py:34). -/
def commaGroup (n : Nat) : String :=
  if n < 1000 then toString n
  else
    commaGroup (n / 1000) ++ "," ++
      (let g := n % 1000
       if g < 10 then "00" ++ toString g
       else if g < 100 then "0" ++ toString g
       else toString g)
termination_by n
decreasing_by exact Nat.div_lt_self (by omega) (by omega)

/-- Python `format(x, ',.2f')` on a non-NaN value: sign, comma-grouped
integer part, two decimal digits.  (Rounding of the half-cent tie is
modelled half-up; the float half-even tie behaviour does not affect any
verified claim.) -/
def formatFloat2 (q : ℚ) : String :=
  let cents := (|q| * 100 + 1 / 2).floor.toNat
  let whole := cents / 100
  let frac := cents % 100
  (if q < 0 then "-" else "") ++ commaGroup whole ++ "." ++
    (if frac < 10 then "0" ++ toString frac else toString frac)

/-- The summary line `f"Average Billing Amount: ${avg_billing:,.2f}"` of the
layout (app.py:34).  Python's `format` renders the NaN mean (all billing
values missing) as the three characters `nan`, so the line becomes
`Average Billing Amount: $nan` — it does not raise. -/
def summary_avg_billing (df : List Row) : String :=
  "Average Billing Amount: $" ++
    (match avg_billing df with
     | none => "nan"
     | some q => formatFloat2 q)

/-- The module state the callbacks can see: the shared DataFrame `df`
loaded once at app.py:16.  No statement in any callback assigns to `df` or
uses an in-place pandas operation (boolean-mask selection, `groupby`,
`astype` and the `px.*` constructors all return new objects), so each
callback below is the pure figure computation paired with the unchanged
state. -/
structure AppState where
  df : List Row
deriving DecidableEq, Repr

/-- `update_age_distribution` as a state transition (app.py:121-146). -/
def update_age_distribution_cb (s : AppState) (selected_gender : Option String) :
    Figure × AppState :=
  (update_age_distribution s.df selected_gender, s)

/-- `update_condition_distribution` as a state transition (app.py:149-156). -/
def update_condition_distribution_cb (s : AppState) (selected_gender : Option String) :
    Figure × AppState :=
  (update_condition_distribution s.df selected_gender, s)

/-- `update_admission_trends` as a state transition (app.py:159-176). -/
def update_admission_trends_cb (s : AppState) (chart_type selected_condition : Option String) :
    Figure × AppState :=
  (update_admission_trends s.df chart_type selected_condition, s)

/-- `update_billing_distribution` as a state transition (app.py:179-188). -/
def update_billing_distribution_cb (s : AppState) (selected_gender : Option String)
    (slider_value : ℚ) : Figure × AppState :=
  (update_billing_distribution s.df selected_gender slider_value, s)

/-- `update_insurance_comparison` as a state transition (app.py:191-202). -/
def update_insurance_comparison_cb (s : AppState) (selected_gender : Option String) :
    Figure × AppState :=
  (update_insurance_comparison s.df selected_gender, s)

/-- A two-row raw table: the table of spec §8 bullet 5 — one parsable and
one unparsable Billing Amount. -/
def sampleRaw : List RawRow :=
  [ { age := 30, gender := "Male", medicalCondition := "Asthma",
      insuranceProvider := "Aetna", billingRaw := .num 100,
      admissionYear := 2023, admissionMonth := 4 },
    { age := 45, gender := "Female", medicalCondition := "Diabetes",
      insuranceProvider := "Cigna", billingRaw := .text "bad",
      admissionYear := 2023, admissionMonth := 2 } ]

/-- A raw table in which every Billing Amount fails numeric coercion, so the
loaded column is all-missing and its mean is NaN. -/
def allMissingRaw : List RawRow :=
  [ { age := 30, gender := "Male", medicalCondition := "Asthma",
      insuranceProvider := "Aetna", billingRaw := .text "oops",
      admissionYear := 2023, admissionMonth := 4 } ]

/-!
## Verified claims
-/

/-- C1: with a truthy (set) selection the gender and medical-condition
filter steps keep exactly the rows whose Gender (resp. Medical Condition)
equals the selected value, and with the selection unset (`None`) they are
the identity — never "match nothing". -/
theorem filter_set_exact_unset_identity (df : List Row) (s : String) (hs : s ≠ "") :
    genderFilter df (some s) = df.filter (fun r => r.gender == s)
    ∧ genderFilter df none = df
    ∧ conditionFilter df (some s) = df.filter (fun r => r.medicalCondition == s)
    ∧ conditionFilter df none = df := by
  refine ⟨?_, rfl, ?_, rfl⟩ <;>
    simp [genderFilter, conditionFilter, strTruthy, hs]

theorem filter_set_exact_unset_identity_witness :
    ("Male" : String) ≠ ""
    ∧ (genderFilter (load_data sampleRaw) (some "Male")
          = (load_data sampleRaw).filter (fun r => r.gender == "Male")
        ∧ genderFilter (load_data sampleRaw) none = load_data sampleRaw
        ∧ conditionFilter (load_data sampleRaw) (some "Male")
          = (load_data sampleRaw).filter (fun r => r.medicalCondition == "Male")
        ∧ conditionFilter (load_data sampleRaw) none = load_data sampleRaw) :=
  ⟨by decide, filter_set_exact_unset_identity (load_data sampleRaw) "Male" (by decide)⟩

/-- C2: on the loaded two-row table `[{Gender: M, Billing: 100},
{Gender: F, Billing: "bad"}]` the unparsable billing became missing at
load, `avg_billing` is 100 (missing excluded, not zero) and `num_records`
is 2 (missing-billing rows still counted). -/
theorem avg_excludes_missing_count_includes :
    (load_data sampleRaw).map (·.billing) = [some 100, none]
    ∧ avg_billing (load_data sampleRaw) = some 100
    ∧ num_records (load_data sampleRaw) = 2 := by
  refine ⟨by decide, ?_, by decide⟩
  norm_num [avg_billing, load_data, sampleRaw, toNumericCoerce, List.filterMap]

/-- C7: every one of the five view callbacks leaves the shared table state
unchanged: the table is read-only to the views. -/
theorem callbacks_preserve_state (s : AppState) (g ct c : Option String) (sl : ℚ) :
    (update_age_distribution_cb s g).2 = s
    ∧ (update_condition_distribution_cb s g).2 = s
    ∧ (update_admission_trends_cb s ct c).2 = s
    ∧ (update_billing_distribution_cb s g sl).2 = s
    ∧ (update_insurance_comparison_cb s g).2 = s :=
  ⟨rfl, rfl, rfl, rfl, rfl⟩

/-- C9: the empty-string gender selection is falsy in Python, so every
gender-filtered view treats it as "no filter": the filtered table is the
whole table, even if rows with Gender `""` exist. -/
theorem empty_string_selection_no_filter (df : List Row) (sl : ℚ) :
    genderFilter df (some "") = df
    ∧ update_age_distribution df (some "") = update_age_distribution df none
    ∧ update_condition_distribution df (some "") = update_condition_distribution df none
    ∧ update_billing_distribution df (some "") sl = update_billing_distribution df none sl
    ∧ update_insurance_comparison df (some "") = update_insurance_comparison df none :=
  ⟨rfl, rfl, rfl, rfl, rfl⟩

/-- C10: for any chart-type value other than the exact string `line` —
including `None` — the Admission Trends branch is total and produces the
bar chart. -/
theorem chart_type_not_line_bar (df : List Row) (ct c : Option String)
    (h : ct ≠ some "line") :
    update_admission_trends df ct c =
      Figure.bar (groupByYearMonthSize (conditionFilter df c))
        "Admission Trends Over Time" := by
  simp only [update_admission_trends]
  rw [if_neg]
  simp [h]

theorem chart_type_not_line_bar_witness :
    (none : Option String) ≠ some "line"
    ∧ update_admission_trends (load_data sampleRaw) none none =
        Figure.bar (groupByYearMonthSize (conditionFilter (load_data sampleRaw) none))
          "Admission Trends Over Time" :=
  ⟨by decide, chart_type_not_line_bar (load_data sampleRaw) none none (by decide)⟩

/-- The keys of `groupByYearMonthSize` are strictly increasing: the sorted
dedup of the YearMonth column is `≤`-sorted and duplicate-free. -/
lemma groupByYearMonthSize_keys_chain (df : List Row) :
    List.Chain' (· < ·) ((groupByYearMonthSize df).map Prod.fst) := by
  unfold groupByYearMonthSize
  rw [List.map_map]
  have hid :
      (Prod.fst ∘ fun k => (k, df.countP (fun r => r.yearMonth == k)))
        = (id : Nat → Nat) := rfl
  rw [hid, List.map_id]
  have hperm := List.perm_insertionSort (α := Nat) (· ≤ ·) ((df.map (·.yearMonth)).dedup)
  have hnd : (((df.map (·.yearMonth)).dedup).insertionSort (· ≤ ·)).Nodup :=
    hperm.nodup_iff.mpr (List.nodup_dedup _)
  have hsorted : List.Sorted (· ≤ ·)
      (((df.map (·.yearMonth)).dedup).insertionSort (· ≤ ·)) :=
    List.sorted_insertionSort _ _
  exact (List.Pairwise.chain'
    ((hsorted.and hnd).imp fun h => lt_of_le_of_ne h.1 h.2))

/-- C3: for every table and condition selection, the YearMonth buckets of
the Admission Trends view, in output order, are strictly increasing
chronologically. -/
theorem admission_trend_buckets_chronological (df : List Row) (c : Option String) :
    List.Chain' (· < ·)
      ((groupByYearMonthSize (conditionFilter df c)).map Prod.fst) :=
  groupByYearMonthSize_keys_chain (conditionFilter df c)

/-- C8: the ceiling filter is idempotent, so re-filtering the Billing
Distribution rows with the same ceiling a second time yields the same
chart spec as filtering once. -/
theorem billing_refilter_idempotent (df : List Row) (g : Option String) (c : ℚ) :
    Figure.hist
        (binCounts
          ((ceilingFilter (ceilingFilter (genderFilter df g) c) c).filterMap (·.billing)) 10)
        "Billing Amount Distribution"
      = update_billing_distribution df g c := by
  have h2 : ceilingFilter (ceilingFilter (genderFilter df g) c) c
      = ceilingFilter (genderFilter df g) c := by
    unfold ceilingFilter
    rw [List.filter_filter]
    simp [Bool.and_self]
  rw [h2]
  rfl

/-- C4: when the slider ceiling is below every Billing Amount present in
the gender-filtered rows, the ceiling comparison removes every row (missing
billings compare false as well) and the Billing Distribution view returns
the well-defined empty-histogram "no data" spec — no division, no error. -/
theorem ceiling_below_min_no_data (df : List Row) (g : Option String) (c : ℚ)
    (h : ∀ r ∈ genderFilter df g, ∀ b, r.billing = some b → c < b) :
    update_billing_distribution df g c
      = Figure.hist [] "Billing Amount Distribution" := by
  have hnil : ceilingFilter (genderFilter df g) c = [] := by
    rw [ceilingFilter, List.filter_eq_nil_iff]
    intro r hr
    cases hb : r.billing with
    | none => simp [billingLE, hb]
    | some b =>
      simp only [billingLE, hb, decide_eq_true_eq]
      exact not_le.mpr (h r hr b hb)
  unfold update_billing_distribution
  rw [hnil]
  rfl

theorem ceiling_below_min_no_data_witness :
    (∀ r ∈ genderFilter (load_data sampleRaw) none, ∀ b, r.billing = some b → (50 : ℚ) < b)
    ∧ update_billing_distribution (load_data sampleRaw) none 50
        = Figure.hist [] "Billing Amount Distribution" := by
  have hhyp : ∀ r ∈ genderFilter (load_data sampleRaw) none,
      ∀ b, r.billing = some b → (50 : ℚ) < b := by
    intro r hr b hb
    have hmem : r ∈ load_data sampleRaw := hr
    simp only [load_data, sampleRaw, toNumericCoerce, List.map_cons, List.map_nil,
      List.mem_cons, List.not_mem_nil, or_false] at hmem
    rcases hmem with h1 | h2
    · rw [h1] at hb
      simp only [Option.some.injEq] at hb
      rw [← hb]
      norm_num
    · rw [h2] at hb
      simp at hb
  exact ⟨hhyp, ceiling_below_min_no_data (load_data sampleRaw) none 50 hhyp⟩

/-- C5 counterexample: with every Billing Amount missing, the mean is NaN
and the summary line the layout renders is `Average Billing Amount: $nan` —
the string `N/A` appears nowhere in it, so the display does not surface an
explicit `N/A`. -/
theorem summary_all_missing_shows_nan_not_na :
    avg_billing (load_data allMissingRaw) = none
    ∧ summary_avg_billing (load_data allMissingRaw) = "Average Billing Amount: $nan"
    ∧ ¬ "N/A".data <:+: (summary_avg_billing (load_data allMissingRaw)).data := by
  refine ⟨by decide, by decide, by decide⟩

/-- C5 amended: whenever the average billing is undefined (all values
missing), the summary line renders without raising, as the literal string
`Average Billing Amount: $nan` (Python's NaN formatting), not as `N/A`. -/
theorem summary_all_missing_renders_nan (df : List Row)
    (h : avg_billing df = none) :
    summary_avg_billing df = "Average Billing Amount: $nan" := by
  rw [summary_avg_billing, h]
  decide

theorem summary_all_missing_renders_nan_witness :
    avg_billing (load_data allMissingRaw) = none
    ∧ summary_avg_billing (load_data allMissingRaw) = "Average Billing Amount: $nan" :=
  ⟨by decide, summary_all_missing_renders_nan (load_data allMissingRaw) (by decide)⟩

/-- Sum of a function mapped over `List.range`, as a `Finset.range` sum. -/
lemma list_range_map_sum (n : Nat) (g : Nat → Nat) :
    ((List.range n).map g).sum = ∑ i in Finset.range n, g i := by
  induction n with
  | zero => simp
  | succ n ih =>
      rw [List.range_succ, List.map_append, List.sum_append, Finset.sum_range_succ, ih]
      simp

/-- Counting a list once per bin index recovers its length when every
element's index lies below `n`. -/
lemma sum_countP_eq_length (f : ℚ → Nat) (n : Nat) (l : List ℚ)
    (h : ∀ v ∈ l, f v < n) :
    (∑ i in Finset.range n, l.countP (fun x => f x == i)) = l.length := by
  induction l with
  | nil => simp
  | cons a l ih =>
      have ha : f a ∈ Finset.range n :=
        Finset.mem_range.mpr (h a (List.mem_cons_self a l))
      have hl : ∀ v ∈ l, f v < n := fun v hv => h v (List.mem_cons_of_mem a hv)
      simp only [List.countP_cons, List.length_cons]
      rw [Finset.sum_add_distrib, ih hl]
      congr 1
      have hite : ∀ i ∈ Finset.range n,
          (if (f a == i) then 1 else 0) = (if f a = i then 1 else 0) := by
        intro i _
        simp [beq_iff_eq]
      rw [Finset.sum_congr rfl hite, Finset.sum_ite_eq]
      simp [ha]

/-- Every bin index is below `nbins` when `nbins` is positive. -/
lemma binIdx_lt (lo hi : ℚ) (nbins : Nat) (hn : 0 < nbins) (v : ℚ) :
    binIdx lo hi nbins v < nbins := by
  rw [binIdx]
  split
  · exact hn
  · exact lt_of_le_of_lt (Nat.min_le_right _ _) (Nat.sub_lt hn Nat.one_pos)

/-- On non-empty data the 10 histogram bin counts sum to the data length. -/
lemma binCounts_sum_eq_length (vals : List ℚ) (hv : vals ≠ []) :
    (binCounts vals 10).sum = vals.length := by
  match vals, hv with
  | v :: vs, _ =>
    show (((List.range 10).map fun i =>
        (v :: vs).countP
          (fun x => binIdx (vs.foldr min v) (vs.foldr max v) 10 x == i))).sum
      = (v :: vs).length
    rw [list_range_map_sum]
    exact sum_countP_eq_length _ 10 _ fun x _ => binIdx_lt _ _ _ (by norm_num) x

/-- C6: whenever the gender-filtered set is non-empty, the Age Distribution
view is the 10-bin age histogram and its bin counts sum to the number of
filtered rows. -/
theorem age_histogram_bins_sum_length (df : List Row) (g : Option String)
    (h : genderFilter df g ≠ []) :
    update_age_distribution df g
        = Figure.hist (binCounts ((genderFilter df g).map fun r => (r.age : ℚ)) 10)
            "Age Distribution by Gender"
    ∧ (binCounts ((genderFilter df g).map fun r => (r.age : ℚ)) 10).sum
        = (genderFilter df g).length := by
  constructor
  · unfold update_age_distribution
    rw [if_neg]
    simp [List.isEmpty_iff, h]
  · rw [binCounts_sum_eq_length _ (by simp [List.map_eq_nil_iff, h])]
    exact List.length_map _ _

theorem age_histogram_bins_sum_length_witness :
    genderFilter (load_data sampleRaw) none ≠ []
    ∧ (update_age_distribution (load_data sampleRaw) none
          = Figure.hist
              (binCounts ((genderFilter (load_data sampleRaw) none).map fun r => (r.age : ℚ)) 10)
              "Age Distribution by Gender"
        ∧ (binCounts ((genderFilter (load_data sampleRaw) none).map fun r => (r.age : ℚ)) 10).sum
            = (genderFilter (load_data sampleRaw) none).length) :=
  ⟨by decide, age_histogram_bins_sum_length (load_data sampleRaw) none (by decide)⟩
